import Mathlib

/-!
Verification development for the Conductor job orchestration backend
(`backend/src/server.js`, `backend/src/services/worker.js`).

The JavaScript source is shallowly embedded: every pure computation is a
Lean function, every callback-driven process interaction is a function of
the observed events (exit codes, spawn errors, stream chunks), and every
fallible external step (filesystem, database, child process) is a
parameter of type `Except String _` or an explicit outcome value.
-/

namespace Conductor

/-! ### Inventory rendering (worker.js, runAnsiblePlaybook lines 106-128)

A structured inventory is a JSON object mapping group names to group
objects; a group object may or may not carry a `hosts` key, and each host
may carry a (possibly absent) mapping of variable names to values.
JavaScript object iteration order is insertion order, so the JSON objects
are embedded as association lists.  A falsy `hosts` or `vars` field is
`none`.  Variable values are embedded by their JavaScript string
interpolation. -/

/-- Variables of one host: `Object.entries(vars)` as an association list. -/
abbrev HostVars := List (String × String)

/-- One group object of a structured inventory: the optional `hosts` key,
mapping host names to their optional variable objects. -/
structure GroupDef where
  hosts : Option (List (String × Option HostVars))
deriving Repr, DecidableEq

/-- The `inventory` field of a playbook job: `typeof inventory === 'object'`
selects the structured branch, anything else is a pre-formatted text
inventory. -/
inductive Inventory where
  | structured (groups : List (String × GroupDef))
  | text (s : String)
deriving Repr, DecidableEq

/-- Accumulation of one host's variable tokens:
`inventoryContent += \x7b` `\x7d` is not used; the loop body is
`acc ++ " " ++ key ++ "=" ++ value` per entry. -/
def renderVarsAcc (acc : String) (vs : HostVars) : String :=
  vs.foldl (fun acc kv => acc ++ " " ++ kv.1 ++ "=" ++ kv.2) acc

/-- Accumulation of one host line: the host name, its variable tokens when
`vars` is truthy, then a newline. -/
def renderHostAcc (acc : String) (h : String × Option HostVars) : String :=
  let acc := acc ++ h.1
  let acc := match h.2 with
    | none => acc
    | some vs => renderVarsAcc acc vs
  acc ++ "\n"

/-- Accumulation of one group section: the `[group]` header, the host
lines when the group object has a truthy `hosts` key, then a blank line. -/
def renderGroupAcc (acc : String) (g : String × GroupDef) : String :=
  let acc := acc ++ "[" ++ g.1 ++ "]\n"
  let acc := match g.2.hosts with
    | none => acc
    | some hs => hs.foldl renderHostAcc acc
  acc ++ "\n"

/-- The INI text accumulated for a structured inventory, starting from the
empty `inventoryContent`. -/
def inventoryContent (groups : List (String × GroupDef)) : String :=
  groups.foldl renderGroupAcc ""

/-- The text written to `inventory.ini`: the accumulated INI rendering for
a structured inventory, the given text verbatim otherwise. -/
def writeInventoryText : Inventory → String
  | .structured groups => inventoryContent groups
  | .text s => s

/-- Concatenation of a list of strings (spec-side helper used to state the
compositional shape of the rendering). -/
def concatAll (l : List String) : String :=
  l.foldr (fun a b => a ++ b) ""

/-- Specification-shaped rendering of one host's variable tokens. -/
def varTokens : Option HostVars → String
  | none => ""
  | some vs => concatAll (vs.map fun kv => " " ++ kv.1 ++ "=" ++ kv.2)

/-- Specification-shaped rendering of one host line. -/
def hostLine (h : String × Option HostVars) : String :=
  h.1 ++ varTokens h.2 ++ "\n"

/-- Specification-shaped rendering of one group section: header, host
lines (empty when the group has no `hosts` key), trailing blank line. -/
def groupSection (g : String × GroupDef) : String :=
  "[" ++ g.1 ++ "]\n" ++
    (match g.2.hosts with
      | none => ""
      | some hs => concatAll (hs.map hostLine)) ++ "\n"

/-! ### Command execution (worker.js, executeCommand lines 206-256)

One child-process run is observed through its stdout chunks, stderr
chunks, and a final settling event: either a `close` event carrying the
exit code (`none` embeds JavaScript `null`, the signal-kill case), or an
`error` event carrying the spawn error's optional `code` property and its
message.  The promise settles once; the first settling event wins, so the
embedding takes exactly one final event. -/

/-- Final settling event of a spawned process. -/
inductive ProcEvent where
  | close (code : Option Int)
  | spawnError (errCode : Option String) (message : String)
deriving Repr, DecidableEq

/-- Observed behaviour of one spawned process. -/
structure ProcRun where
  stdoutData : List String
  stderrData : List String
  finalEvent : ProcEvent
deriving Repr, DecidableEq

/-- JavaScript string interpolation of the exit code (`null` prints as
the string `"null"`). -/
def codeText : Option Int → String
  | none => "null"
  | some n => toString n

/-- Resolved value of a successful execution. -/
structure ExecSuccess where
  output : String
  exitCode : Option Int
  duration : Nat
deriving Repr, DecidableEq

/-- Embedding of `executeCommand`: stdout chunks are concatenated into
`output`, stderr chunks into `error`; a `close` with code 0 resolves, any
other close rejects with the command, the interpolated code and the
captured stderr; a spawn error with code ENOENT rejects with the
not-installed message, any other spawn error rejects with the original
error's message. -/
def executeCommand (command : String) (run : ProcRun)
    (now processedOn : Nat) : Except String ExecSuccess :=
  let output := String.join run.stdoutData
  let error := String.join run.stderrData
  match run.finalEvent with
  | .close code =>
      if code = some 0 then
        .ok ⟨output, code, now - processedOn⟩
      else
        .error (command ++ " falló con código " ++ codeText code ++ ":\n" ++ error)
  | .spawnError errCode message =>
      if errCode = some "ENOENT" then
        .error (command ++ " no está instalado o no está en el PATH")
      else
        .error message

/-- A string occurs inside another. -/
def SubstrOf (s t : String) : Prop :=
  ∃ a b, t = a ++ s ++ b

/-! ### Docker availability probe (worker.js, checkDockerAvailable
lines 164-174) -/

/-- Options object passed to `spawn`; Node's `spawn` recognises an
optional `timeout` (milliseconds) alongside `stdio`. -/
structure SpawnOptions where
  stdio : Option String
  timeout : Option Nat
deriving Repr, DecidableEq

/-- The exact spawn invocation of the probe:
`spawn('docker', ['--version'], \x7b stdio: 'ignore' \x7d)` — no timeout
option is passed. -/
def checkDockerSpawnCall : String × List String × SpawnOptions :=
  ("docker", ["--version"], ⟨some "ignore", none⟩)

/-- Final settling event of the probe process (it never rejects: both the
`close` and the `error` handler resolve the promise). -/
inductive DockerProbe where
  | close (code : Option Int)
  | spawnErr (message : String)
deriving Repr, DecidableEq

/-- Embedding of `checkDockerAvailable`: resolves `code === 0` on close,
`false` on a spawn error. -/
def checkDockerAvailable : DockerProbe → Bool
  | .close code => code = some 0
  | .spawnErr _ => false

/-! ### Queue creation options (server.js, createJob lines 389-408) -/

/-- The `backoff` option object passed to `Queue.add`. -/
structure BullBackoff where
  type : String
  delay : Nat
deriving Repr, DecidableEq

/-- The options object passed to `Queue.add`. -/
structure BullJobOptions where
  removeOnComplete : Nat
  removeOnFail : Nat
  attempts : Nat
  backoff : BullBackoff
  delay : Nat
deriving Repr, DecidableEq

/-- One call to `jobQueue.add` as assembled by `createJob`. -/
structure QueueAddCall where
  name : String
  data : String
  opts : BullJobOptions
deriving Repr, DecidableEq

/-- Embedding of `createJob`: it forwards the job type and data and the
literal options object of server.js lines 392-399. -/
def createJob (jobType : String) (jobData : String) : QueueAddCall :=
  ⟨jobType, jobData, ⟨50, 20, 3, ⟨"exponential", 2000⟩, 1000⟩⟩

/-! ### Queue statistics (server.js, getQueueStats lines 411-428)

The four reads `getWaiting`, `getActive`, `getCompleted`, `getFailed` are
awaited in order inside one try block; each is embedded as an `Except`
parameter, and the first failure reaches the catch, which returns the
all-zero counts object. -/

/-- The counts object returned by `getQueueStats`. -/
structure QueueStats where
  waiting : Nat
  active : Nat
  completed : Nat
  failed : Nat
deriving Repr, DecidableEq

/-- Embedding of `getQueueStats` over the four queue reads; matching in
sequence mirrors the sequential awaits, and any rejection falls through
to the zero object of the catch block. -/
def getQueueStats {α : Type} (w a c f : Except String (List α)) : QueueStats :=
  match w with
  | .error _ => ⟨0, 0, 0, 0⟩
  | .ok wl =>
    match a with
    | .error _ => ⟨0, 0, 0, 0⟩
    | .ok al =>
      match c with
      | .error _ => ⟨0, 0, 0, 0⟩
      | .ok cl =>
        match f with
        | .error _ => ⟨0, 0, 0, 0⟩
        | .ok fl => ⟨wl.length, al.length, cl.length, fl.length⟩

/-! ### Demo-mode HTTP handlers (server.js lines 103-176, 179-234, 236-291,
323-347)

Each POST handler is embedded as a function of the request body, the
current in-memory `jobs` list and the value of `Date.now()` at the time of
the request.  Optional body fields are `Option`s; JavaScript falsiness of
a string field is absence or emptiness.  The handlers respond
synchronously (`res.json` runs before any timer fires) and the timer
chains that later mutate the created record are embedded as the record's
status timeline, in firing order. -/

/-- JavaScript truthiness of an optional string field. -/
def truthyStr : Option String → Bool
  | none => false
  | some s => !(s = "")

/-- JavaScript truthiness of the optional `inventory` field (an object is
always truthy, a string is truthy when nonempty). -/
def truthyInv : Option Inventory → Bool
  | none => false
  | some (.structured _) => true
  | some (.text s) => !(s = "")

/-- JavaScript string interpolation of a possibly-undefined field. -/
def fieldText : Option String → String
  | none => "undefined"
  | some s => s

/-- One record of the in-memory `jobs` array (the fields the handlers
assign at creation time). -/
structure JobRecord where
  id : Nat
  name : String
  jobType : String
  status : String
deriving Repr, DecidableEq

/-- The JSON body sent back by a handler. -/
structure ApiResponse where
  httpStatus : Nat
  jobId : Option Nat
  status : Option String
  message : Option String
  error : Option String
deriving Repr, DecidableEq

/-- Result of one handler invocation: the response, the updated jobs
list, and the status timeline of the created record (offset in
milliseconds from the request, and the status assigned then), the
creation status included at offset 0. -/
structure HandlerOutcome where
  response : ApiResponse
  jobs : List JobRecord
  timeline : List (Nat × String)
deriving Repr, DecidableEq

/-- Request body of `POST /api/ansible/playbook`. -/
structure PlaybookRequest where
  name : Option String
  playbook : Option String
  inventory : Option Inventory
deriving Repr, DecidableEq

/-- Embedding of the `POST /api/ansible/playbook` handler: a falsy
`name`, `playbook` or `inventory` yields an immediate 400 and leaves the
jobs list untouched; otherwise a record with status `queued` is
unshifted, the response carries status `queued`, and the timers set the
record to `running` after 1000 ms and to `completed` after a further
4000 ms. -/
def playbookHandler (now : Nat) (req : PlaybookRequest)
    (jobs : List JobRecord) : HandlerOutcome :=
  if truthyStr req.name && truthyStr req.playbook && truthyInv req.inventory then
    let j : JobRecord := ⟨now, fieldText req.name, "ansible-playbook", "queued"⟩
    ⟨⟨200, some now, some "queued", some "Playbook encolado para ejecución", none⟩,
      j :: jobs,
      [(0, "queued"), (1000, "running"), (5000, "completed")]⟩
  else
    ⟨⟨400, none, none, none,
        some "Faltan campos obligatorios: name, playbook, inventory"⟩,
      jobs, []⟩

/-- Request body of the two Terraform handlers. -/
structure TerraformRequest where
  name : Option String
  workingDir : Option String
deriving Repr, DecidableEq

/-- Embedding of the `POST /api/terraform/plan` handler: no field is
validated; a record with status `queued` is always unshifted (id
`Date.now() + 1`), the response carries status `queued`, and the timers
set `running` after 1000 ms and `completed` after a further 6000 ms. -/
def planHandler (now : Nat) (req : TerraformRequest)
    (jobs : List JobRecord) : HandlerOutcome :=
  let j : JobRecord :=
    ⟨now + 1, fieldText req.name ++ " - Plan", "terraform-plan", "queued"⟩
  ⟨⟨200, some (now + 1), some "queued",
      some "Terraform plan encolado para ejecución", none⟩,
    j :: jobs,
    [(0, "queued"), (1000, "running"), (7000, "completed")]⟩

/-- Embedding of the `POST /api/terraform/apply` handler: no field is
validated; a record with status `queued` is always unshifted (id
`Date.now() + 2`), the response carries status `queued`, and the timers
set `running` after 1000 ms and `completed` after a further 10000 ms. -/
def applyHandler (now : Nat) (req : TerraformRequest)
    (jobs : List JobRecord) : HandlerOutcome :=
  let j : JobRecord :=
    ⟨now + 2, fieldText req.name ++ " - Apply", "terraform-apply", "queued"⟩
  ⟨⟨200, some (now + 2), some "queued",
      some "Terraform apply encolado para ejecución", none⟩,
    j :: jobs,
    [(0, "queued"), (1000, "running"), (11000, "completed")]⟩

/-- Request body of `POST /api/test/echo`. -/
structure EchoRequest where
  message : Option String
deriving Repr, DecidableEq

/-- Embedding of the `POST /api/test/echo` handler: no field is
validated; a record is unshifted already in status `completed` (id
`Date.now() + 3`), the response carries status `completed`, and no timer
runs. -/
def echoHandler (now : Nat) (req : EchoRequest)
    (jobs : List JobRecord) : HandlerOutcome :=
  let j : JobRecord :=
    ⟨now + 3, "Echo: " ++ fieldText req.message, "test-echo", "completed"⟩
  ⟨⟨200, some (now + 3), some "completed",
      some ("Echo job creado: " ++ fieldText req.message), none⟩,
    j :: jobs,
    [(0, "completed")]⟩

/-- A status is terminal when it is `completed` or `failed`. -/
def isTerminal (s : String) : Bool :=
  s = "completed" || s = "failed"

/-- Statuses of a timeline that are terminal. -/
def terminalStatuses (timeline : List (Nat × String)) : List String :=
  (timeline.map Prod.snd).filter isTerminal

/-! ### Worker processing (worker.js lines 12-79)

The BullMQ processing function is embedded as a function of the runner's
outcome (the resolved result value, or the thrown error's message), of
whether the database pool and the Socket.IO handle are present, and of
the job's retry counters.  Its observable effects are the sequence of
status/result writes to the `jobs` table, the events emitted to the
job's room, and the value rethrown to the queue library. -/

/-- Value stored in the `result` column: `JSON.stringify(result)` on
success, `JSON.stringify(\x7b error: error.message \x7d)` on failure. -/
inductive DbResult (α : Type) where
  | resultOf (r : α)
  | errorOf (message : String)
deriving Repr, DecidableEq

/-- One `UPDATE jobs SET status = ...` write: the status string and the
result column value when one is written. -/
structure DbWrite (α : Type) where
  status : String
  result : Option (DbResult α)
deriving Repr, DecidableEq

/-- One Socket.IO emission: the room and the event name. -/
structure WsEmit where
  room : String
  event : String
deriving Repr, DecidableEq

/-- Outcome of the per-type runner selected by the switch. -/
inductive RunnerOutcome (α : Type) where
  | success (r : α)
  | thrown (message : String)
deriving Repr, DecidableEq

/-- Observable effects of one invocation of the processing function. -/
structure WorkerEffects (α : Type) where
  dbWrites : List (DbWrite α)
  emits : List WsEmit
  rethrown : Option String
deriving Repr, DecidableEq

/-- Embedding of the worker processing function: the `running` write
happens first when the pool is present; on success the `completed` write
(with the stringified result) and, when Socket.IO is present, a
`job-completed` emission to the job's room; on any caught error the
`failed` write with the error message as result, no emission, and a
rethrow of the error.  The job's retry counters `attemptsMade` and
`attempts` are carried by the job object but never consulted by either
branch. -/
def processJob (α : Type) (poolPresent ioPresent : Bool) (dbJobId : String)
    (outcome : RunnerOutcome α) (attemptsMade attempts : Nat) :
    WorkerEffects α :=
  let runningWrites : List (DbWrite α) :=
    if poolPresent then [⟨"running", none⟩] else []
  match outcome with
  | .success r =>
      ⟨runningWrites ++
          (if poolPresent then [⟨"completed", some (.resultOf r)⟩] else []),
        (if ioPresent then [⟨"job-" ++ dbJobId, "job-completed"⟩] else []),
        none⟩
  | .thrown msg =>
      ⟨runningWrites ++
          (if poolPresent then [⟨"failed", some (.errorOf msg)⟩] else []),
        [],
        some msg⟩

/-- Status of the last database write of a worker invocation, when any. -/
def finalDbStatus {α : Type} (e : WorkerEffects α) : Option String :=
  (e.dbWrites.getLast?).map DbWrite.status

/-! ### Test echo runner (worker.js, runTestEcho lines 82-94) -/

/-- Value resolved by `runTestEcho` (the wall-clock `timestamp` field is
a parameter of the embedding). -/
structure EchoResult where
  output : String
  timestamp : String
  exitCode : Nat
deriving Repr, DecidableEq

/-- Milliseconds of the `setTimeout` that simulates the echo work. -/
def echoDelayMs : Nat := 2000

/-- Embedding of `runTestEcho`: after the simulated delay it resolves the
interpolated message with exit code 0. -/
def runTestEcho (message ts : String) : EchoResult :=
  ⟨"Echo: " ++ message, ts, 0⟩

/-! ### Playbook attempt (worker.js, runAnsiblePlaybook lines 96-162,
runWithDocker lines 176-191, runWithLocalAnsible lines 193-204)

One attempt is embedded as a function of the job data and of the
environment's responses: each filesystem step may reject, the Docker
probe settles somehow, and the chosen command's process behaves somehow.
The observable outcome records the attempted filesystem actions in
order, the command finally spawned with its arguments, and the value the
attempt resolves or rejects with.  The `try`/`finally` of the source
places the `fs.rm` after every path out of the body, and the inner
`try`/`catch` of the finally block swallows a failing removal. -/

/-- One attempted filesystem action of a playbook attempt. -/
inductive FsAction where
  | mkdir (dir : String)
  | writeFile (path content : String)
  | rm (dir : String)
deriving Repr, DecidableEq

/-- Environment responses consumed by one playbook attempt. -/
structure AttemptEnv where
  mkdirRes : Except String Unit
  writeInventoryRes : Except String Unit
  writePlaybookRes : Except String Unit
  writeVarsRes : Except String Unit
  dockerProbe : DockerProbe
  execRun : ProcRun
  now : Nat
  processedOn : Nat
  rmRes : Except String Unit
deriving Repr

/-- Payload of a playbook job as read by the worker. -/
structure PlaybookJobData where
  playbook : String
  inventory : Inventory
  extraVars : List (String × String)
  jobId : String
deriving Repr, DecidableEq

/-- Observable outcome of one playbook attempt. -/
structure AttemptOutcome where
  trace : List FsAction
  invoked : Option (String × List String)
  result : Except String ExecSuccess
deriving Repr

/-- The scoped working directory `path.join(os.tmpdir(), job-id)`. -/
def workDirOf (tmpDir jobId : String) : String :=
  tmpDir ++ "/job-" ++ jobId

/-- YAML serialization of the extra variables, one `key: value` line per
entry (values are embedded by their `JSON.stringify` rendering). -/
def varsYaml (vars : List (String × String)) : String :=
  String.intercalate "\n" (vars.map fun kv => kv.1 ++ ": " ++ kv.2)

/-- Body of the `try` block: filesystem materialization, probe, and
dispatch to the Docker or local invocation; each rejection short-circuits
out of the body with the trace accumulated so far. -/
def playbookBody (tmpDir : String) (d : PlaybookJobData) (env : AttemptEnv) :
    List FsAction × Option (String × List String) × Except String ExecSuccess :=
  let workDir := workDirOf tmpDir d.jobId
  let trace := [FsAction.mkdir workDir]
  match env.mkdirRes with
  | .error e => (trace, none, .error e)
  | .ok _ =>
    let inventoryPath := workDir ++ "/inventory.ini"
    let trace := trace ++ [.writeFile inventoryPath (writeInventoryText d.inventory)]
    match env.writeInventoryRes with
    | .error e => (trace, none, .error e)
    | .ok _ =>
      let playbookPath := workDir ++ "/playbook.yml"
      let trace := trace ++ [.writeFile playbookPath d.playbook]
      match env.writePlaybookRes with
      | .error e => (trace, none, .error e)
      | .ok _ =>
        let hasVars := !d.extraVars.isEmpty
        let trace := trace ++
          (if hasVars then [FsAction.writeFile (workDir ++ "/vars.yml") (varsYaml d.extraVars)]
           else [])
        match (if hasVars then env.writeVarsRes else .ok ()) with
        | .error e => (trace, none, .error e)
        | .ok _ =>
          if checkDockerAvailable env.dockerProbe then
            let args := ["run", "--rm", "-v", workDir ++ ":/workspace",
              "quay.io/ansible/ansible-runner:latest", "ansible-playbook",
              "-i", "/workspace/inventory.ini", "/workspace/playbook.yml"] ++
              (if hasVars then ["--extra-vars", "@/workspace/vars.yml"] else [])
            (trace, some ("docker", args),
              executeCommand "docker" env.execRun env.now env.processedOn)
          else
            let args := ["-i", inventoryPath, playbookPath] ++
              (if hasVars then ["--extra-vars", "@" ++ workDir ++ "/vars.yml"] else [])
            (trace, some ("ansible-playbook", args),
              executeCommand "ansible-playbook" env.execRun env.now env.processedOn)

/-- Embedding of `runAnsiblePlaybook`: the body runs inside `try`, and the
`finally` block appends the removal attempt of the working directory on
every path out of the body; a failing removal is caught and logged and
does not alter the attempt's result. -/
def runAnsiblePlaybook (tmpDir : String) (d : PlaybookJobData)
    (env : AttemptEnv) : AttemptOutcome :=
  let body := playbookBody tmpDir d env
  ⟨body.1 ++ [FsAction.rm (workDirOf tmpDir d.jobId)], body.2.1, body.2.2⟩

/-! ### Helper lemmas: the accumulator renderings factor through the
compositional renderings. -/

theorem renderVarsAcc_factor (vs : HostVars) (acc : String) :
    renderVarsAcc acc vs = acc ++ varTokens (some vs) := by
  induction vs generalizing acc with
  | nil => simp [renderVarsAcc, varTokens, concatAll]
  | cons kv vs ih =>
    simp only [renderVarsAcc, List.foldl_cons, varTokens, concatAll,
      List.map_cons, List.foldr_cons] at *
    rw [ih]
    simp [String.append_assoc]

theorem renderHostAcc_factor (h : String × Option HostVars) (acc : String) :
    renderHostAcc acc h = acc ++ hostLine h := by
  cases hv : h.2 with
  | none => simp [renderHostAcc, hostLine, hv, varTokens, String.append_assoc]
  | some vs =>
    simp [renderHostAcc, hostLine, hv, renderVarsAcc_factor,
      String.append_assoc]

theorem foldl_renderHostAcc_factor (hs : List (String × Option HostVars))
    (acc : String) :
    hs.foldl renderHostAcc acc = acc ++ concatAll (hs.map hostLine) := by
  induction hs generalizing acc with
  | nil => simp [concatAll]
  | cons h hs ih =>
    simp only [List.foldl_cons, List.map_cons, concatAll, List.foldr_cons]
    rw [renderHostAcc_factor, ih]
    simp [concatAll, String.append_assoc]

theorem renderGroupAcc_factor (g : String × GroupDef) (acc : String) :
    renderGroupAcc acc g = acc ++ groupSection g := by
  cases hg : g.2.hosts with
  | none => simp [renderGroupAcc, groupSection, hg, String.append_assoc]
  | some hs =>
    simp [renderGroupAcc, groupSection, hg, foldl_renderHostAcc_factor,
      String.append_assoc]

theorem foldl_renderGroupAcc_factor (gs : List (String × GroupDef))
    (acc : String) :
    gs.foldl renderGroupAcc acc = acc ++ concatAll (gs.map groupSection) := by
  induction gs generalizing acc with
  | nil => simp [concatAll]
  | cons g gs ih =>
    simp only [List.foldl_cons, List.map_cons, concatAll, List.foldr_cons]
    rw [renderGroupAcc_factor, ih]
    simp [concatAll, String.append_assoc]

/-- C3. The rendered inventory text of a structured mapping is exactly the
concatenation, over the top-level groups in order, of a `[group]` section:
the header line, then (when the group object carries a `hosts` key) one
line per host consisting of the host name followed by one ` key=value`
token per variable entry, then a blank line — so a group without a
`hosts` key contributes a header with an empty section; a pre-formatted
text inventory is written verbatim; and the spec's scenario inventory
renders to `[all]\nlocalhost ansible_connection=local\n\n`. -/
theorem inventory_rendering_composition :
    (∀ groups : List (String × GroupDef),
      inventoryContent groups = concatAll (groups.map groupSection))
    ∧ (∀ groupName : String,
      inventoryContent [(groupName, ⟨none⟩)] = "[" ++ groupName ++ "]\n" ++ "\n")
    ∧ (∀ s : String, writeInventoryText (.text s) = s)
    ∧ writeInventoryText (.structured
        [("all", ⟨some [("localhost", some [("ansible_connection", "local")])]⟩)]) =
      "[all]\nlocalhost ansible_connection=local\n\n" := by
  refine ⟨?_, ?_, ?_, ?_⟩
  · intro groups
    simpa using foldl_renderGroupAcc_factor groups ""
  · intro groupName
    simp [inventoryContent, renderGroupAcc, String.append_assoc]
  · intro s
    rfl
  · rfl

/-- C4. A command execution resolves (with an output/exit-code record)
exactly when the process closes with exit code 0; a close with any other
code rejects with a message that contains the interpolated exit code and
the captured stderr text; and a spawn failure with code ENOENT rejects
with the not-installed message, which differs from every message a
nonzero close of the same command can produce. -/
theorem executeCommand_outcomes :
    ∀ (command : String) (run : ProcRun) (now processedOn : Nat),
      ((∃ r, executeCommand command run now processedOn = .ok r) ↔
        run.finalEvent = .close (some 0))
      ∧ (∀ code, run.finalEvent = .close code → code ≠ some 0 →
          ∃ m, executeCommand command run now processedOn = .error m ∧
            SubstrOf (codeText code) m ∧
            SubstrOf (String.join run.stderrData) m)
      ∧ (∀ emsg, run.finalEvent = .spawnError (some "ENOENT") emsg →
          ∃ m, executeCommand command run now processedOn = .error m ∧
            ∀ (run₂ : ProcRun) (code₂ : Option Int) (n₂ p₂ : Nat) (m₂ : String),
              run₂.finalEvent = .close code₂ → code₂ ≠ some 0 →
              executeCommand command run₂ n₂ p₂ = .error m₂ → m ≠ m₂) := by
  intro command run now processedOn
  refine ⟨⟨?_, ?_⟩, ?_, ?_⟩
  · rintro ⟨r, hr⟩
    unfold executeCommand at hr
    cases hev : run.finalEvent with
    | close code =>
      rw [hev] at hr
      by_cases h0 : code = some 0
      · rw [h0]
      · simp [h0] at hr
    | spawnError ec msg =>
      rw [hev] at hr
      by_cases he : ec = some "ENOENT" <;> simp [he] at hr
  · intro hev
    exact ⟨⟨String.join run.stdoutData, some 0, now - processedOn⟩,
      by simp [executeCommand, hev]⟩
  · intro code hev hne
    refine ⟨command ++ " falló con código " ++ codeText code ++ ":\n" ++
        String.join run.stderrData, by simp [executeCommand, hev, hne], ?_, ?_⟩
    · exact ⟨command ++ " falló con código ", ":\n" ++ String.join run.stderrData,
        by simp [String.append_assoc]⟩
    · exact ⟨command ++ " falló con código " ++ codeText code ++ ":\n", "",
        by simp [String.append_assoc]⟩
  · intro emsg hev
    refine ⟨command ++ " no está instalado o no está en el PATH",
      by simp [executeCommand, hev], ?_⟩
    intro run₂ code₂ n₂ p₂ m₂ hev₂ hne₂ hexec₂ heq
    unfold executeCommand at hexec₂
    rw [hev₂] at hexec₂
    simp only [hne₂, if_neg, reduceIte] at hexec₂
    rw [Except.error.injEq] at hexec₂
    rw [← hexec₂] at heq
    have hd := congrArg String.data heq
    simp only [String.data_append, List.append_assoc] at hd
    have ht := List.append_cancel_left hd
    have h4 := congrArg (List.take 4) ht
    rw [List.take_append_of_le_length (by decide)] at h4
    exact absurd h4 (by decide)

/-- Witness for C4: at a concrete zero-exit run the execution resolves. -/
theorem executeCommand_outcomes_witness :
    ∃ r, executeCommand "ansible-playbook"
        ⟨["PLAY RECAP\n"], [], ProcEvent.close (some 0)⟩ 9 4 = .ok r :=
  (executeCommand_outcomes "ansible-playbook"
    ⟨["PLAY RECAP\n"], [], ProcEvent.close (some 0)⟩ 9 4).1.mpr rfl

/-- C5. For every playbook attempt, whatever the environment does —
every filesystem step may succeed or reject, the probe may settle either
way, the spawned process may resolve or reject — the attempted action
trace begins with the creation of the scoped working directory and ends
with its removal, so the removal is attempted on every exit path of the
attempt. -/
theorem playbook_cleanup_on_every_path :
    ∀ (tmpDir : String) (d : PlaybookJobData) (env : AttemptEnv),
      (runAnsiblePlaybook tmpDir d env).trace.getLast? =
        some (FsAction.rm (workDirOf tmpDir d.jobId))
      ∧ (runAnsiblePlaybook tmpDir d env).trace.head? =
        some (FsAction.mkdir (workDirOf tmpDir d.jobId))
      ∧ FsAction.rm (workDirOf tmpDir d.jobId) ∈
        (runAnsiblePlaybook tmpDir d env).trace := by
  intro tmpDir d env
  refine ⟨List.getLast?_concat _, ?_, List.mem_append_right _ (by simp)⟩
  have hb : (playbookBody tmpDir d env).1.head? =
      some (FsAction.mkdir (workDirOf tmpDir d.jobId)) := by
    unfold playbookBody
    cases env.mkdirRes <;>
      cases env.writeInventoryRes <;>
        cases env.writePlaybookRes <;>
          cases env.writeVarsRes <;>
            cases hd : checkDockerAvailable env.dockerProbe <;>
              cases hex : d.extraVars <;>
                simp [hd, hex]
  show ((playbookBody tmpDir d env).1 ++ _).head? = _
  cases hcons : (playbookBody tmpDir d env).1 with
  | nil => rw [hcons] at hb; simp at hb
  | cons x xs =>
    rw [hcons] at hb
    simp only [List.head?_cons, Option.some.injEq] at hb
    simp [hb]

/-- Counterexample for C6 as stated: the availability probe passes no
timeout option to `spawn` at all, so it does not invoke the version
command "with a short timeout". -/
theorem docker_probe_has_no_timeout :
    checkDockerSpawnCall.2.2.timeout = none
    ∧ ¬ ∃ t, checkDockerSpawnCall.2.2.timeout = some t := by
  exact ⟨rfl, by simp [checkDockerSpawnCall]⟩

/-- C6 (amended). The availability probe spawns `docker --version` with
stdio ignored and no timeout option; any close with a nonzero (or null)
exit code and any spawn failure make it report unavailable; and when the
probe reports unavailable, an attempt whose materialization steps
succeed invokes `ansible-playbook` directly (the local path) and the
attempt's outcome is exactly the local execution's outcome — the probe
result alone produces no error. -/
theorem docker_unavailable_falls_back_to_local :
    ∀ (tmpDir : String) (d : PlaybookJobData) (env : AttemptEnv),
      checkDockerSpawnCall = ("docker", ["--version"], ⟨some "ignore", none⟩)
      ∧ (∀ code, env.dockerProbe = .close code → code ≠ some 0 →
          checkDockerAvailable env.dockerProbe = false)
      ∧ (∀ m, env.dockerProbe = .spawnErr m →
          checkDockerAvailable env.dockerProbe = false)
      ∧ (checkDockerAvailable env.dockerProbe = false →
          env.mkdirRes = .ok () →
          env.writeInventoryRes = .ok () →
          env.writePlaybookRes = .ok () →
          (if !d.extraVars.isEmpty then env.writeVarsRes else .ok ()) = .ok () →
          ∃ args,
            (runAnsiblePlaybook tmpDir d env).invoked =
              some ("ansible-playbook", args)
            ∧ (runAnsiblePlaybook tmpDir d env).result =
                executeCommand "ansible-playbook" env.execRun
                  env.now env.processedOn) := by
  intro tmpDir d env
  refine ⟨rfl, ?_, ?_, ?_⟩
  · intro code hev hne
    simp [checkDockerAvailable, hev, hne]
  · intro m hev
    simp [checkDockerAvailable, hev]
  · intro hprobe hmk hinv hpb hv
    refine ⟨["-i", workDirOf tmpDir d.jobId ++ "/inventory.ini",
        workDirOf tmpDir d.jobId ++ "/playbook.yml"] ++
        (if !d.extraVars.isEmpty then
          ["--extra-vars", "@" ++ workDirOf tmpDir d.jobId ++ "/vars.yml"]
         else []), ?_, ?_⟩ <;>
      · simp only [runAnsiblePlaybook, playbookBody, hmk, hinv, hpb]
        simp only [hv, hprobe]
        simp

/-- Witness for C6: with a probe that fails to spawn and materialization
steps that succeed, a concrete attempt invokes the local tool and
returns the local execution's result. -/
theorem docker_unavailable_falls_back_to_local_witness :
    ∃ args,
      (runAnsiblePlaybook "/tmp"
          ⟨"- hosts: all", Inventory.text "localhost\n", [], "9"⟩
          ⟨.ok (), .ok (), .ok (), .ok (), DockerProbe.spawnErr "spawn ENOENT",
            ⟨["done\n"], [], ProcEvent.close (some 0)⟩, 20, 5, .ok ()⟩).invoked =
        some ("ansible-playbook", args)
      ∧ (runAnsiblePlaybook "/tmp"
          ⟨"- hosts: all", Inventory.text "localhost\n", [], "9"⟩
          ⟨.ok (), .ok (), .ok (), .ok (), DockerProbe.spawnErr "spawn ENOENT",
            ⟨["done\n"], [], ProcEvent.close (some 0)⟩, 20, 5, .ok ()⟩).result =
          executeCommand "ansible-playbook"
            ⟨["done\n"], [], ProcEvent.close (some 0)⟩ 20 5 :=
  (docker_unavailable_falls_back_to_local "/tmp"
      ⟨"- hosts: all", Inventory.text "localhost\n", [], "9"⟩
      ⟨.ok (), .ok (), .ok (), .ok (), DockerProbe.spawnErr "spawn ENOENT",
        ⟨["done\n"], [], ProcEvent.close (some 0)⟩, 20, 5, .ok ()⟩).2.2.2
    rfl rfl rfl rfl rfl

/-- Counterexample for C1 as stated: with retry attempts remaining
(attempt 1 of 3) the worker's catch branch already records status
`failed`, and even on the final attempt (3 of 3) it emits no event at
all to the job's subscribers. -/
theorem worker_marks_failed_with_attempts_remaining :
    finalDbStatus (processJob Nat true true "7" (.thrown "boom") 1 3) =
      some "failed"
    ∧ (processJob Nat true true "7" (.thrown "boom") 3 3).emits = [] :=
  ⟨rfl, rfl⟩

/-- C1 (amended). For every job whose processing function throws, the
worker's catch branch — regardless of how many retry attempts remain —
records status `failed` with the error message attached as the result
(when the database pool is present), emits no event to the job's
subscribers, and rethrows the error so the queue library decides about
re-enqueueing; its behaviour is independent of the attempt counters. -/
theorem worker_failure_branch_unconditional :
    ∀ (α : Type) (pool io : Bool) (dbJobId msg : String)
      (attemptsMade attempts : Nat),
      (pool = true →
        finalDbStatus (processJob α pool io dbJobId (.thrown msg)
          attemptsMade attempts) = some "failed"
        ∧ (processJob α pool io dbJobId (.thrown msg)
            attemptsMade attempts).dbWrites.getLast? =
          some ⟨"failed", some (.errorOf msg)⟩)
      ∧ (processJob α pool io dbJobId (.thrown msg)
          attemptsMade attempts).emits = []
      ∧ (processJob α pool io dbJobId (.thrown msg)
          attemptsMade attempts).rethrown = some msg
      ∧ processJob α pool io dbJobId (.thrown msg) attemptsMade attempts =
          processJob α pool io dbJobId (.thrown msg) 0 0 := by
  intro α pool io dbJobId msg attemptsMade attempts
  refine ⟨?_, ?_, ?_, ?_⟩ <;>
    cases pool <;> simp [processJob, finalDbStatus]

/-- Witness for C1: a concrete failing job with the pool present ends
with a `failed` write carrying the error message. -/
theorem worker_failure_branch_unconditional_witness :
    finalDbStatus (processJob Nat true false "12" (.thrown "exit 2") 2 3) =
      some "failed"
    ∧ (processJob Nat true false "12" (.thrown "exit 2") 2 3).dbWrites.getLast? =
      some ⟨"failed", some (.errorOf "exit 2")⟩ :=
  (worker_failure_branch_unconditional Nat true false "12" "exit 2" 2 3).1 rfl

/-- Counterexample for C2 as stated: a valid echo submission does not
return status `queued`; the handler answers `completed` and creates the
record already terminal. -/
theorem echo_submission_returns_completed :
    (echoHandler 100 ⟨some "ping"⟩ []).response.status = some "completed"
    ∧ ¬ (echoHandler 100 ⟨some "ping"⟩ []).response.status = some "queued" := by
  exact ⟨rfl, by simp [echoHandler]⟩

/-- C2 (amended). Valid playbook-run submissions and all plan and apply
submissions return immediately with status `queued`, and the created
record's simulated timeline passes through exactly one terminal status,
`completed`, never `failed` and never two terminal statuses; echo
submissions instead return status `completed` with a record that is
already terminal and stays so. -/
theorem submission_status_and_single_terminal :
    ∀ (now : Nat) (preq : PlaybookRequest) (treq : TerraformRequest)
      (ereq : EchoRequest) (jobs : List JobRecord),
      (truthyStr preq.name = true → truthyStr preq.playbook = true →
        truthyInv preq.inventory = true →
        (playbookHandler now preq jobs).response.status = some "queued"
        ∧ terminalStatuses (playbookHandler now preq jobs).timeline =
            ["completed"])
      ∧ ((planHandler now treq jobs).response.status = some "queued"
        ∧ terminalStatuses (planHandler now treq jobs).timeline = ["completed"])
      ∧ ((applyHandler now treq jobs).response.status = some "queued"
        ∧ terminalStatuses (applyHandler now treq jobs).timeline = ["completed"])
      ∧ ((echoHandler now ereq jobs).response.status = some "completed"
        ∧ terminalStatuses (echoHandler now ereq jobs).timeline =
            ["completed"]) := by
  intro now preq treq ereq jobs
  refine ⟨?_, ⟨rfl, rfl⟩, ⟨rfl, rfl⟩, ⟨rfl, rfl⟩⟩
  intro hn hp hi
  constructor <;> simp [playbookHandler, hn, hp, hi, terminalStatuses, isTerminal]

/-- Witness for C2: a concrete valid playbook submission returns
`queued` and its timeline has `completed` as its only terminal status. -/
theorem submission_status_and_single_terminal_witness :
    (playbookHandler 50 ⟨some "Deploy", some "- hosts: all",
        some (Inventory.text "localhost\n")⟩ []).response.status = some "queued"
    ∧ terminalStatuses (playbookHandler 50 ⟨some "Deploy", some "- hosts: all",
        some (Inventory.text "localhost\n")⟩ []).timeline = ["completed"] :=
  (submission_status_and_single_terminal 50
      ⟨some "Deploy", some "- hosts: all", some (Inventory.text "localhost\n")⟩
      ⟨none, none⟩ ⟨none⟩ []).1 rfl rfl rfl

/-- Counterexample for C7 as stated: a plan submission with no
`workingDir` (required for plan per the claim) is not rejected — no
validation error is returned and a job record is created anyway. -/
theorem plan_without_workingDir_creates_job :
    ((planHandler 100 ⟨none, none⟩ []).jobs).length = 1
    ∧ (planHandler 100 ⟨none, none⟩ []).response.error = none
    ∧ (planHandler 100 ⟨none, none⟩ []).response.httpStatus = 200
    ∧ (planHandler 100 ⟨none, none⟩ []).response.status = some "queued" :=
  ⟨rfl, rfl, rfl, rfl⟩

/-- C7 (amended). Only the playbook-run endpoint validates its payload:
when `name`, `playbook` or `inventory` is falsy it returns an immediate
400 validation error and leaves the jobs list untouched; the plan, apply
and echo endpoints perform no validation and always create a job
record, even when `workingDir` or `message` is missing. -/
theorem only_playbook_submissions_validated :
    ∀ (now : Nat) (preq : PlaybookRequest) (treq : TerraformRequest)
      (ereq : EchoRequest) (jobs : List JobRecord),
      ((truthyStr preq.name && truthyStr preq.playbook
          && truthyInv preq.inventory) = false →
        (playbookHandler now preq jobs).response.httpStatus = 400
        ∧ (playbookHandler now preq jobs).response.error =
            some "Faltan campos obligatorios: name, playbook, inventory"
        ∧ (playbookHandler now preq jobs).jobs = jobs)
      ∧ ((planHandler now treq jobs).jobs).length = jobs.length + 1
      ∧ ((applyHandler now treq jobs).jobs).length = jobs.length + 1
      ∧ ((echoHandler now ereq jobs).jobs).length = jobs.length + 1 := by
  intro now preq treq ereq jobs
  refine ⟨?_, rfl, rfl, rfl⟩
  intro hfalse
  refine ⟨?_, ?_, ?_⟩ <;> simp [playbookHandler, hfalse]

/-- Witness for C7: a playbook submission missing its `playbook` field
is rejected with a 400 and creates no record. -/
theorem only_playbook_submissions_validated_witness :
    (playbookHandler 80 ⟨some "Deploy", none, some (Inventory.text "x")⟩
        []).response.httpStatus = 400
    ∧ (playbookHandler 80 ⟨some "Deploy", none, some (Inventory.text "x")⟩
        []).response.error =
      some "Faltan campos obligatorios: name, playbook, inventory"
    ∧ (playbookHandler 80 ⟨some "Deploy", none, some (Inventory.text "x")⟩
        []).jobs = [] :=
  (only_playbook_submissions_validated 80
      ⟨some "Deploy", none, some (Inventory.text "x")⟩ ⟨none, none⟩ ⟨none⟩ []).1
    rfl

/-- Counterexample for C8 as stated: the initial delay passed to the
queue is 1000 milliseconds, not 0. -/
theorem createJob_delay_is_nonzero :
    (createJob "test-echo" "data").opts.delay = 1000
    ∧ ¬ (createJob "test-echo" "data").opts.delay = 0 := by
  exact ⟨rfl, by decide⟩

/-- C8 (amended). Every entry enqueued through `createJob` carries
attempts = 3, exponential backoff with base delay 2000 ms, retention of
at most 50 completed and 20 failed entries, and an initial delay of
1000 ms before the first attempt is eligible. -/
theorem createJob_options_values :
    ∀ (jobType jobData : String),
      (createJob jobType jobData).name = jobType
      ∧ (createJob jobType jobData).data = jobData
      ∧ (createJob jobType jobData).opts =
          ⟨50, 20, 3, ⟨"exponential", 2000⟩, 1000⟩ :=
  fun _ _ => ⟨rfl, rfl, rfl⟩

/-- C9. The echo runner's result is exactly `Echo: ` followed by the
message, with exit code 0, produced after the fixed 2000 ms simulated
delay; fed into the worker's success path (database present), the job's
final recorded status is `completed` and nothing is rethrown. -/
theorem echo_result_and_completion :
    ∀ (m ts : String) (io : Bool) (dbJobId : String)
      (attemptsMade attempts : Nat),
      (runTestEcho m ts).output = "Echo: " ++ m
      ∧ (runTestEcho m ts).exitCode = 0
      ∧ echoDelayMs = 2000
      ∧ finalDbStatus (processJob EchoResult true io dbJobId
          (.success (runTestEcho m ts)) attemptsMade attempts) =
        some "completed"
      ∧ (processJob EchoResult true io dbJobId
          (.success (runTestEcho m ts)) attemptsMade attempts).rethrown =
        none := by
  intro m ts io dbJobId attemptsMade attempts
  exact ⟨rfl, rfl, rfl, rfl, rfl⟩

/-- C10. When any of the four queue reads fails, `getQueueStats` returns
the same counts object as for a fully readable empty queue — the all-zero
object — so no error propagates to the caller and an unreachable queue is
indistinguishable from an empty one. -/
theorem getQueueStats_error_equals_empty :
    ∀ (α : Type) (w a c f : Except String (List α)),
      (¬ (w.isOk = true ∧ a.isOk = true ∧ c.isOk = true ∧ f.isOk = true) →
        getQueueStats w a c f =
          getQueueStats (Except.ok ([] : List α)) (.ok []) (.ok []) (.ok []))
      ∧ getQueueStats (Except.ok ([] : List α)) (.ok []) (.ok []) (.ok []) =
          ⟨0, 0, 0, 0⟩
      ∧ (∀ wl al cl fl, w = .ok wl → a = .ok al → c = .ok cl → f = .ok fl →
          getQueueStats w a c f =
            ⟨wl.length, al.length, cl.length, fl.length⟩) := by
  intro α w a c f
  refine ⟨?_, rfl, ?_⟩
  · intro hbad
    cases w <;> cases a <;> cases c <;> cases f <;>
      simp [getQueueStats, Except.isOk, Except.toBool] at hbad ⊢
  · intro wl al cl fl hw ha hc hf
    rw [hw, ha, hc, hf]
    rfl

/-- Witness for C10: with the waiting read rejecting, the stats are the
all-zero object. -/
theorem getQueueStats_error_equals_empty_witness :
    getQueueStats (Except.error "connect ECONNREFUSED" : Except String (List Nat))
        (.ok []) (.ok []) (.ok []) = ⟨0, 0, 0, 0⟩ :=
  ((getQueueStats_error_equals_empty Nat (Except.error "connect ECONNREFUSED")
      (.ok []) (.ok []) (.ok [])).1 (by simp [Except.isOk, Except.toBool])).trans
    (getQueueStats_error_equals_empty Nat (Except.error "connect ECONNREFUSED")
      (.ok []) (.ok []) (.ok [])).2.1

end Conductor
